import Mathlib

/-!
Verification of the Polyglot Pal language-tutoring chat client.

The repository is a small browser application: a conversation session
controller wiring speech recognition, a remote chat-completion client and
speech synthesis to a message-list view.  Below we give a shallow embedding
of its data model and operations, translated from the TypeScript source
(`types.ts`, `constants.ts`, the chat service module and the `App`
component), and prove the specified properties about them.

Conventions of the embedding:
  - JavaScript exceptions become `Except String` results;
  - the mutable module-level variables of the chat service (`ai`, `chat`)
    become an explicit `ChatState` threaded through the functions;
  - the React component state becomes an explicit `AppState` / `CtrlState`;
  - browser platform behaviour (recognition events, voice lists, the
    provider response) is passed in as explicit data, so that every
    function is a pure function of its inputs.
-/

namespace Polyglot

/-- `Role` from `types.ts`: enum with members USER = "user", MODEL = "model". -/
inductive Role where
  | USER
  | MODEL
  deriving DecidableEq, Repr

/-- `Message` from `types.ts`: a role together with the message text. -/
structure Message where
  role : Role
  text : String
  deriving DecidableEq, Repr

/-- `LanguageOption` from `types.ts`: locale code, display name, text direction
("ltr" or "rtl"). -/
structure LanguageOption where
  code : String
  name : String
  dir : String
  deriving DecidableEq, Repr

/-- `SUPPORTED_LANGUAGES` from `constants.ts`. -/
def SUPPORTED_LANGUAGES : List LanguageOption :=
  [⟨"en-US", "English", "ltr"⟩,
   ⟨"fr-FR", "Français", "ltr"⟩,
   ⟨"ar-SA", "العربية", "rtl"⟩]

/-- `code.split("-")[0]` in the source: the part of the string before the
first dash (the whole string when it has no dash). -/
def primarySubtag (code : String) : String :=
  String.mk (code.toList.takeWhile (fun c => c ≠ '-'))

/-! ## The chat service module (`geminiService`)

The module holds two mutable variables, `let ai = null` and
`let chat = null`.  We represent the pair as `ChatState`; `ai` is
represented by the API key the `GoogleGenAI` client was constructed with,
and `chat` by the configuration the session was created with. -/

/-- The configuration of a chat handle created by `ai.chats.create`:
the model identifier and the system instruction. -/
structure ChatHandle where
  model : String
  systemInstruction : String
  deriving DecidableEq, Repr

/-- The two module-level variables of the chat service. -/
structure ChatState where
  ai : Option String
  chat : Option ChatHandle
  deriving DecidableEq, Repr

/-- The process environment, as far as the service reads it: the optional
`API_KEY` variable. -/
structure Env where
  apiKey : Option String
  deriving DecidableEq, Repr

/-- State of the service module right after it is loaded:
`let ai = null; let chat = null`. -/
def initialChatState : ChatState := ⟨none, none⟩

/-- Loading the service module evaluates no code that reads the
environment or can throw: it only initializes the two variables to null.
Modelled as a function of the environment to record that the result does
not depend on it. -/
def moduleInit (_ : Env) : Except String ChatState :=
  .ok initialChatState

/-- `getAI` from the service module: lazily constructs the provider client.
Throws when `process.env.API_KEY` is falsy (unset or the empty string). -/
def getAI (env : Env) (s : ChatState) : Except String (String × ChatState) :=
  match s.ai with
  | some a => .ok (a, s)
  | none =>
    match env.apiKey with
    | none => .error "API_KEY environment variable not set"
    | some k =>
      if k = "" then .error "API_KEY environment variable not set"
      else .ok (k, { s with ai := some k })

/-- `getSystemInstruction` from the service module: the fixed tutoring
instruction template, parameterized by the display name of the target
language. -/
def getSystemInstruction (languageName : String) : String :=
  "You are Poly, a friendly and encouraging language tutor. The user wants to learn "
    ++ languageName
    ++ ". Your primary role is to have a natural conversation with them in "
    ++ languageName
    ++ ".\n- Your responses MUST be primarily in "
    ++ languageName
    ++ ".\n- If the user makes a mistake in grammar or vocabulary, gently correct them. First provide the corrected sentence in "
    ++ languageName
    ++ ", then provide a very short, simple explanation in English inside parentheses. For example: \"أنا أذهب إلى المكتبة. (The verb conjugation was slightly off. \x27أذهب\x27 is correct for \x27I go\x27.)\"\n- Keep your responses concise and conversational to encourage the user to speak.\n- Occasionally, introduce new vocabulary or suggest a simple conversational scenario (e.g., \"Let\x27s pretend you are ordering a coffee.\").\n- Your main language of conversation is "
    ++ languageName
    ++ ". Only provide explanations in English.\n"

/-- `startChatSession(languageName)`: obtains the provider client (which may
throw on a missing credential) and replaces the module-level `chat` with a
fresh session configured with model "gemini-2.5-flash" and the tutoring
system instruction for `languageName`. -/
def startChatSession (env : Env) (s : ChatState) (languageName : String) :
    Except String ChatState :=
  match getAI env s with
  | .error e => .error e
  | .ok (_, s1) =>
    .ok { s1 with chat := some ⟨"gemini-2.5-flash", getSystemInstruction languageName⟩ }

/-- Reading back the instructions the current session was configured with. -/
def sessionInstructions (s : ChatState) : Option String :=
  s.chat.map (fun c => c.systemInstruction)

/-- `sendMessageToAI(message)`: throws when no session exists; otherwise it
awaits the provider (whose outcome we pass in as `provider`, either the
reply text or a thrown error) and catches any provider error, resolving
with a fixed error string instead of rethrowing. -/
def sendMessageToAI (s : ChatState) (provider : Except String String) :
    Except String String :=
  match s.chat with
  | none => .error "Chat session not initialized. Call startChatSession first."
  | some _ =>
    match provider with
    | .ok text => .ok text
    | .error _ => .ok "Sorry, I encountered an error. Please try again."

/-! ## The App component

`App` keeps the conversation list, the selected language, the recording and
processing flags and the error banner in React state; it also writes the
document-level `lang` and `dir` attributes.  We embed each handler as a
pure function of this state and of the platform inputs it consumes. -/

/-- One entry of a `SpeechRecognitionResultList`, as far as the code reads
it: the final flag and the transcript of alternative zero (`result[0]`,
the only alternative the code ever accesses). -/
structure RecognitionResult where
  isFinal : Bool
  transcript : String
  deriving DecidableEq, Repr

/-- The running transcript of a recognition event: the alternative-zero
transcripts of all results, concatenated in order with no separator
(`Array.from(event.results).map(r => r[0]).map(r => r.transcript).join("")`). -/
def runningTranscript (results : List RecognitionResult) : String :=
  String.join (results.map (fun r => r.transcript))

/-- JavaScript truthiness of `s.trim()`: true exactly when some character
of `s` is not whitespace. -/
def trimmedNonempty (s : String) : Bool :=
  s.toList.any (fun c => !c.isWhitespace)

/-- `handleRecognitionResult`: computes the running transcript and, when
the first result is final and the trimmed transcript is nonempty, appends
a USER message with the transcript and forwards it to the chat client.
The returned value is the forwarded text, `none` when nothing happens
(including the degenerate empty result list, on which the source would
fault before appending anything). -/
def handleRecognitionResult (results : List RecognitionResult) : Option String :=
  let transcript := runningTranscript results
  match results with
  | [] => none
  | r0 :: _ =>
    if r0.isFinal && trimmedNonempty transcript then some transcript else none

/-- A platform speech-synthesis voice, as far as `speak` reads it. -/
structure Voice where
  lang : String
  deriving DecidableEq, Repr

/-- `s.startsWith(p)` on strings, as used by the voice fallback. -/
def strStartsWith (s p : String) : Bool :=
  s.toList.take p.toList.length == p.toList

/-- The voice chosen by `speak` for a language code: the first voice whose
locale equals the code exactly; otherwise the first voice whose locale
starts with the code before its first dash; otherwise none (the utterance
keeps the platform default voice). -/
def selectVoice (voices : List Voice) (code : String) : Option Voice :=
  match voices.find? (fun v => v.lang = code) with
  | some v => some v
  | none => voices.find? (fun v => strStartsWith v.lang (primarySubtag code))

/-- The voice-selection rule as the specification words it: an exact
locale match if one exists, otherwise a voice whose primary language
subtag equals the primary subtag of the requested code, otherwise the
platform default. -/
def specSelectVoice (voices : List Voice) (code : String) : Option Voice :=
  match voices.find? (fun v => v.lang = code) with
  | some v => some v
  | none => voices.find? (fun v => primarySubtag v.lang = primarySubtag code)

/-- The utterance handed to `speechSynthesis.speak`. -/
structure Utterance where
  text : String
  voice : Option Voice
  rate : Nat
  pitch : Nat
  deriving DecidableEq, Repr

/-- `speak(text)`: a no-op when the platform has no `speechSynthesis` at
all; otherwise builds an utterance at rate 1 and pitch 1 with the selected
voice (or the platform default when none matches) and speaks it.  The
returned value is the utterance spoken, `none` for the no-op. -/
def speak (synthAvailable : Bool) (voices : List Voice) (code : String)
    (text : String) : Option Utterance :=
  if synthAvailable then
    some { text := text, voice := selectVoice voices code, rate := 1, pitch := 1 }
  else none

/-- The fixed apology appended by the controller when the chat client
rejects. -/
def apologyText : String := "Sorry, I couldn\x27t process that. Please try again."

/-- The observable effects of one run of `processAIResponse`: the messages
appended to the conversation, the final value of the error banner, and the
text passed to `speak` (none when speech output is not invoked). -/
structure TurnResult where
  appended : List Message
  error : Option String
  spoken : Option String
  deriving DecidableEq, Repr

/-- `processAIResponse(userText)`: awaits the chat client (outcome passed
in as `outcome`); on resolution appends a MODEL message with the reply and
speaks it; on rejection appends a MODEL message with the fixed apology,
sets the error banner (to the rejection message, or to a fallback when it
is empty) and does not invoke speech output. -/
def processAIResponse (outcome : Except String String) : TurnResult :=
  match outcome with
  | .ok aiText => { appended := [⟨Role.MODEL, aiText⟩], error := none, spoken := some aiText }
  | .error e =>
    { appended := [⟨Role.MODEL, apologyText⟩]
      error := some (if e = "" then "Failed to get response from AI." else e)
      spoken := none }

/-- The outcome of the start branch of `handleRecordClick` (entered from
IDLE).  `startAttempts` counts calls to `recognition.start()`,
`reinitialized` records whether `setupRecognition` ran again, and
`retryDelayMs` is the delay of the scheduled retry when one was scheduled. -/
structure StartOutcome where
  isRecording : Bool
  error : Option String
  startAttempts : Nat
  reinitialized : Bool
  retryDelayMs : Option Nat
  deriving DecidableEq, Repr

/-- The start branch of `handleRecordClick`: tries `start()`; if it throws,
re-runs `setupRecognition` and schedules exactly one retry after 250 ms;
if the retry also throws, sets the microphone error and leaves the
recording flag false.  `firstOk` and `retryOk` say whether the respective
`start()` call succeeds. -/
def handleRecordClickStart (firstOk retryOk : Bool) : StartOutcome :=
  if firstOk then
    { isRecording := true, error := none, startAttempts := 1
      reinitialized := false, retryDelayMs := none }
  else if retryOk then
    { isRecording := true, error := none, startAttempts := 2
      reinitialized := true, retryDelayMs := some 250 }
  else
    { isRecording := false
      error := some "Could not start microphone. Please check permissions."
      startAttempts := 2, reinitialized := true, retryDelayMs := some 250 }

/-- The component state the language-switch and clear handlers touch,
together with the document-level metadata the component writes. -/
structure AppState where
  conversation : List Message
  selectedLanguage : LanguageOption
  docLang : String
  docDir : String
  chatState : ChatState
  deriving DecidableEq, Repr

/-- The effect the component runs on every change of `selectedLanguage`:
sets `document.documentElement.lang` to the primary subtag of the new
code and `dir` to its direction, starts a fresh chat session for the new
language, then clears the conversation.  When `startChatSession` throws,
the exception escapes the effect: the metadata has already been written
but the conversation is not cleared. -/
def selectLanguageEffect (env : Env) (s : AppState) (l : LanguageOption) :
    AppState × Option String :=
  let s1 := { s with selectedLanguage := l
                     docLang := primarySubtag l.code
                     docDir := l.dir }
  match startChatSession env s1.chatState l.name with
  | .error e => (s1, some e)
  | .ok cs => ({ s1 with chatState := cs, conversation := [] }, none)

/-- A sequence of language selections, applied in order; stops at the
first selection whose effect throws (the second component carries the
uncaught error). -/
def selectLanguages (env : Env) (s : AppState) :
    List LanguageOption → AppState × Option String
  | [] => (s, none)
  | l :: rest =>
    match selectLanguageEffect env s l with
    | (s1, some e) => (s1, some e)
    | (s1, none) => selectLanguages env s1 rest

/-- `handleClearConversation`: clears the conversation, then starts a new
chat session for the currently selected language.  When `startChatSession`
throws, the exception escapes the click handler after the conversation was
already cleared; the second component carries that uncaught error. -/
def handleClearConversation (env : Env) (s : AppState) : AppState × Option String :=
  let s1 := { s with conversation := ([] : List Message) }
  match startChatSession env s1.chatState s.selectedLanguage.name with
  | .ok cs => ({ s1 with chatState := cs }, none)
  | .error e => (s1, some e)

/-! ## The recording/processing event machine

For the temporal concurrency property we embed the controller as a state
machine over the externally visible events.  The guards record what the
interface and the platform contract allow: the record button is disabled
while a response is being generated (`disabled = isProcessing`), the
recognizer is configured non-continuous so a recording pass delivers
result events only while it is active and none after its final result,
and a chat call can only resolve while it is outstanding.  One source
transition has no such guard: the retry that a failed start schedules
with `setTimeout` fires 250 ms later whatever the state then is, and
calls `recognition.start()` without consulting `isProcessing`. -/

/-- The controller state: the React flags and conversation, plus
bookkeeping for the environment contract — whether the current recording
pass has already delivered its final result, whether a scheduled start
retry is still pending, and how many chat client calls are outstanding. -/
structure CtrlState where
  conversation : List Message
  isRecording : Bool
  isProcessing : Bool
  error : Option String
  passFinalSeen : Bool
  retryPending : Bool
  outstanding : Nat
  deriving DecidableEq, Repr

/-- The events the controller reacts to.  `recordClick` carries whether
`recognition.start()` succeeds when the click starts a pass;
`retryFires` is the scheduled retry of a failed start reaching its
timeout, carrying whether its `start()` call succeeds; `chatResolve`
carries the chat client outcome. -/
inductive Event where
  | recordClick (startOk : Bool)
  | retryFires (startOk : Bool)
  | recogResult (results : List RecognitionResult)
  | recogEnd
  | recogError (msg : String)
  | chatResolve (outcome : Except String String)
  deriving Repr

/-- When an event can occur: clicks only while the button is enabled
(not processing); the scheduled retry whenever it is pending — the timer
callback has no `isProcessing` guard — though its `start()` can only
succeed while the recognizer is not already recording; result events
only during an active pass that has not yet delivered its final result
(non-continuous mode); a resolution only while a call is outstanding. -/
def eventGuard (s : CtrlState) : Event → Bool
  | .recordClick _ => !s.isProcessing
  | .retryFires startOk => s.retryPending && (!startOk || !s.isRecording)
  | .recogResult _ => s.isRecording && !s.passFinalSeen
  | .recogEnd => true
  | .recogError _ => true
  | .chatResolve _ => s.outstanding != 0

/-- One controller step, combining `handleRecordClick` (including the
retry its catch branch schedules), `handleRecognitionResult` /
`processAIResponse`, and the recognizer `onend` / `onerror` callbacks. -/
def stepEvent (s : CtrlState) : Event → CtrlState
  | .recordClick startOk =>
    if s.isRecording then { s with isRecording := false }
    else if startOk then
      { s with isRecording := true, error := none, passFinalSeen := false }
    else { s with retryPending := true }
  | .retryFires startOk =>
    if startOk then
      { s with retryPending := false, isRecording := true
               error := none, passFinalSeen := false }
    else
      { s with retryPending := false
               error := some "Could not start microphone. Please check permissions." }
  | .recogResult results =>
    match handleRecognitionResult results with
    | some t =>
      { s with conversation := s.conversation ++ [⟨Role.USER, t⟩]
               isProcessing := true
               error := none
               outstanding := s.outstanding + 1
               passFinalSeen := true }
    | none =>
      match results with
      | [] => s
      | r0 :: _ => if r0.isFinal then { s with passFinalSeen := true } else s
  | .recogEnd => { s with isRecording := false }
  | .recogError m =>
    { s with error := some ("Speech recognition error: " ++ m), isRecording := false }
  | .chatResolve outcome =>
    let r := processAIResponse outcome
    { s with conversation := s.conversation ++ r.appended
             error := r.error
             isProcessing := false
             outstanding := s.outstanding - 1 }

/-- The initial controller state. -/
def initCtrl : CtrlState :=
  { conversation := [], isRecording := false, isProcessing := false
    error := none, passFinalSeen := false, retryPending := false
    outstanding := 0 }

/-- The states reachable by guarded event sequences. -/
inductive Reachable : CtrlState → Prop where
  | init : Reachable initCtrl
  | next : ∀ s e, Reachable s → eventGuard s e = true → Reachable (stepEvent s e)

/-- Run a trace of events from a state, checking each event's guard. -/
def runGuarded (s : CtrlState) : List Event → Option CtrlState
  | [] => some s
  | e :: es => if eventGuard s e then runGuarded (stepEvent s e) es else none

/-- The event trace on which the source dispatches a second concurrent
chat call: a start click whose `start()` throws and schedules the 250 ms
retry; a second click that starts recording; a final transcript that
dispatches the first chat call and enters PROCESSING; the end of that
recording pass; the pending retry firing while the response is still
outstanding — the timer callback has no `isProcessing` guard — and
restarting recognition; and a second final transcript dispatching a
second chat call while the first is still outstanding. -/
def retryOverlapTrace : List Event :=
  [Event.recordClick false,
   Event.recordClick true,
   Event.recogResult [⟨true, "Bonjour"⟩],
   Event.recogEnd,
   Event.retryFires true,
   Event.recogResult [⟨true, "Encore"⟩]]

/-! ## Claim theorems -/

/-- Claim C1: when the chat client rejects a turn, `processAIResponse`
appends exactly one MODEL message carrying the fixed apology placeholder,
sets the inline error banner, and does not invoke the speech output
adapter for that turn. -/
theorem chat_failure_single_apology_no_speech (e : String) :
    (processAIResponse (.error e)).appended =
      [⟨Role.MODEL, "Sorry, I couldn\x27t process that. Please try again."⟩] ∧
    (processAIResponse (.error e)).error.isSome = true ∧
    (processAIResponse (.error e)).spoken = none := by
  refine ⟨rfl, ?_, rfl⟩
  by_cases h : e = "" <;> simp [processAIResponse, h]

/-- The defining equation of `handleRecognitionResult` on a nonempty
result list. -/
theorem handleRecognitionResult_cons (r0 : RecognitionResult)
    (rest : List RecognitionResult) :
    handleRecognitionResult (r0 :: rest) =
      if r0.isFinal && trimmedNonempty (runningTranscript (r0 :: rest))
      then some (runningTranscript (r0 :: rest)) else none := rfl

/-- Claim C4: a recognition event appends a USER message (forwarding its
text to the chat client) exactly when the first result of the event is
final and the running transcript has nonempty trimmed form; the text
forwarded is the running transcript itself. -/
theorem user_message_iff_first_final_nonempty (results : List RecognitionResult) :
    ((handleRecognitionResult results).isSome = true ↔
      ∃ r0 rest, results = r0 :: rest ∧ r0.isFinal = true ∧
        trimmedNonempty (runningTranscript results) = true) ∧
    (∀ t, handleRecognitionResult results = some t → t = runningTranscript results) := by
  cases results with
  | nil =>
    refine ⟨?_, ?_⟩
    · simp [handleRecognitionResult]
    · intro t ht
      simp [handleRecognitionResult] at ht
  | cons r0 rest =>
    refine ⟨⟨?_, ?_⟩, ?_⟩
    · intro hsome
      rw [handleRecognitionResult_cons] at hsome
      split at hsome
      · rename_i hcond
        simp only [Bool.and_eq_true] at hcond
        exact ⟨r0, rest, rfl, hcond.1, hcond.2⟩
      · simp at hsome
    · rintro ⟨r0x, restx, heq, hfx, htx⟩
      injection heq with h1 h2
      subst h1
      subst h2
      rw [handleRecognitionResult_cons, hfx, htx]
      simp
    · intro t hsome
      rw [handleRecognitionResult_cons] at hsome
      split at hsome
      · exact (Option.some.inj hsome).symm
      · exact Option.noConfusion hsome

/-- Witness for claim C4 at a concrete final, nonempty event. -/
theorem user_message_iff_first_final_nonempty_witness :
    (handleRecognitionResult [⟨true, "Bonjour"⟩]).isSome = true :=
  (user_message_iff_first_final_nonempty [⟨true, "Bonjour"⟩]).1.mpr
    ⟨⟨true, "Bonjour"⟩, [], rfl, rfl, by decide⟩

/-- Claim C6: when `start()` throws on a start intent from IDLE, the
controller reinitializes the recognizer and retries exactly once after a
250 ms delay; when the retry also throws, the inline microphone error is
set and the recording flag stays false. -/
theorem start_failure_retry_once (firstOk retryOk : Bool) (h : firstOk = false) :
    (handleRecordClickStart firstOk retryOk).reinitialized = true ∧
    (handleRecordClickStart firstOk retryOk).startAttempts = 2 ∧
    (handleRecordClickStart firstOk retryOk).retryDelayMs = some 250 ∧
    (retryOk = false →
      (handleRecordClickStart firstOk retryOk).error =
        some "Could not start microphone. Please check permissions." ∧
      (handleRecordClickStart firstOk retryOk).isRecording = false) := by
  subst h
  cases retryOk <;> simp [handleRecordClickStart]

/-- Witness for claim C6: both start attempts fail. -/
theorem start_failure_retry_once_witness :
    (handleRecordClickStart false false).error =
      some "Could not start microphone. Please check permissions." ∧
    (handleRecordClickStart false false).isRecording = false :=
  (start_failure_retry_once false false rfl).2.2.2 rfl

/-- Claim C9: loading the service module raises no error even when the
credential is absent; the missing-credential error is raised on the first
chat-session creation; and once the provider client exists, `getAI` no
longer consults the environment. -/
theorem credential_read_at_first_use (env : Env) (n : String) (h : env.apiKey = none) :
    moduleInit env = .ok initialChatState ∧
    startChatSession env initialChatState n =
      .error "API_KEY environment variable not set" ∧
    (∀ a c, getAI env ⟨some a, c⟩ = .ok (a, ⟨some a, c⟩)) := by
  refine ⟨rfl, ?_, fun a c => rfl⟩
  simp [startChatSession, getAI, initialChatState, h]

/-- Witness for claim C9 with an environment lacking the credential. -/
theorem credential_read_at_first_use_witness :
    startChatSession ⟨none⟩ initialChatState "English" =
      .error "API_KEY environment variable not set" :=
  (credential_read_at_first_use ⟨none⟩ "English" rfl).2.1

/-- Claim C10: with a session initialized, `sendMessageToAI` always
resolves — provider failures are caught and resolved as the fixed error
string — and the only rejection is the not-initialized error raised when
no session exists. -/
theorem send_message_never_rejects_when_initialized (s : ChatState)
    (p : Except String String) :
    (s.chat ≠ none → ∃ t, sendMessageToAI s p = .ok t) ∧
    (∀ e, s.chat ≠ none → p = .error e →
      sendMessageToAI s p = .ok "Sorry, I encountered an error. Please try again.") ∧
    (s.chat = none →
      sendMessageToAI s p =
        .error "Chat session not initialized. Call startChatSession first.") := by
  obtain ⟨ai, chat⟩ := s
  cases chat with
  | none =>
    refine ⟨?_, ?_, fun _ => rfl⟩
    · intro hne
      simp at hne
    · intro e hne
      simp at hne
  | some c =>
    refine ⟨?_, ?_, ?_⟩
    · intro _
      cases p with
      | ok t => exact ⟨t, rfl⟩
      | error e => exact ⟨_, rfl⟩
    · intro e _ hp
      subst hp
      rfl
    · intro habs
      simp at habs

/-- Claim C2 fails on the source: a controller state with two chat
client calls outstanding at once is reachable.  The retry that a failed
start schedules with `setTimeout` fires without any `isProcessing`
guard, restarts recognition while a response is still outstanding, and
the next final transcript dispatches a second concurrent
`sendMessageToAI`.  The theorem runs the concrete failing trace (every
event guard holds along it) and reads off two outstanding calls. -/
theorem concurrent_chat_calls_reachable :
    ∃ s, runGuarded initCtrl retryOverlapTrace = some s ∧
      Reachable s ∧ s.isProcessing = true ∧ s.outstanding = 2 := by
  refine ⟨_,
    by decide,
    Reachable.next _ (Event.recogResult [⟨true, "Encore"⟩])
      (Reachable.next _ (Event.retryFires true)
        (Reachable.next _ Event.recogEnd
          (Reachable.next _ (Event.recogResult [⟨true, "Bonjour"⟩])
            (Reachable.next _ (Event.recordClick true)
              (Reachable.next _ (Event.recordClick false)
                Reachable.init (by decide))
              (by decide))
            (by decide))
          (by decide))
        (by decide))
      (by decide),
    by decide, by decide⟩

/-- Under a present, nonempty credential, `startChatSession` always
succeeds and installs a session configured with the tutoring instructions
for the given language name. -/
theorem startChatSession_ok (env : Env) (k : String) (hk : env.apiKey = some k)
    (hne : k ≠ "") (cs : ChatState) (n : String) :
    ∃ cs1, startChatSession env cs n = .ok cs1 ∧
      cs1.chat = some ⟨"gemini-2.5-flash", getSystemInstruction n⟩ := by
  obtain ⟨ai, chat⟩ := cs
  cases ai with
  | some a => exact ⟨_, rfl, rfl⟩
  | none =>
    refine ⟨⟨some k, some ⟨"gemini-2.5-flash", getSystemInstruction n⟩⟩, ?_, rfl⟩
    simp [startChatSession, getAI, hk, hne]

/-- Under a present, nonempty credential, one language selection clears
the conversation, installs a session for the new language and updates the
document metadata. -/
theorem selectLanguageEffect_ok (env : Env) (k : String) (hk : env.apiKey = some k)
    (hne : k ≠ "") (s : AppState) (l : LanguageOption) :
    (selectLanguageEffect env s l).2 = none ∧
    (selectLanguageEffect env s l).1.conversation = [] ∧
    sessionInstructions (selectLanguageEffect env s l).1.chatState =
      some (getSystemInstruction l.name) ∧
    (selectLanguageEffect env s l).1.selectedLanguage = l ∧
    (selectLanguageEffect env s l).1.docLang = primarySubtag l.code ∧
    (selectLanguageEffect env s l).1.docDir = l.dir := by
  obtain ⟨cs1, hok, hchat⟩ := startChatSession_ok env k hk hne s.chatState l.name
  simp [selectLanguageEffect, hok, sessionInstructions, hchat]

/-- A selection whose effect does not throw lets the sequence continue
from the updated state. -/
theorem selectLanguages_cons (env : Env) (s : AppState) (l0 : LanguageOption)
    (rest : List LanguageOption) (h : (selectLanguageEffect env s l0).2 = none) :
    selectLanguages env s (l0 :: rest) =
      selectLanguages env (selectLanguageEffect env s l0).1 rest := by
  cases heq : selectLanguageEffect env s l0 with
  | mk s1 e2 =>
    rw [heq] at h
    simp only at h
    subst h
    simp [selectLanguages, heq]

/-- Claim C3: for every sequence of language selections (under a present
credential), immediately after each selection the conversation log is
empty, the chat session is a fresh one configured with the tutoring
instructions of the newly selected language, and the document-level
locale and direction metadata reflect that language. -/
theorem language_selection_resets (env : Env) (k : String) (hk : env.apiKey = some k)
    (hne : k ≠ "") (s : AppState) (ls : List LanguageOption) (l : LanguageOption) :
    (selectLanguages env s (ls ++ [l])).2 = none ∧
    (selectLanguages env s (ls ++ [l])).1.conversation = [] ∧
    sessionInstructions (selectLanguages env s (ls ++ [l])).1.chatState =
      some (getSystemInstruction l.name) ∧
    (selectLanguages env s (ls ++ [l])).1.selectedLanguage = l ∧
    (selectLanguages env s (ls ++ [l])).1.docLang = primarySubtag l.code ∧
    (selectLanguages env s (ls ++ [l])).1.docDir = l.dir := by
  induction ls generalizing s with
  | nil =>
    obtain ⟨h2, hconv, hinstr, hsel, hlang, hdir⟩ :=
      selectLanguageEffect_ok env k hk hne s l
    rw [List.nil_append, selectLanguages_cons env s l [] h2]
    exact ⟨rfl, hconv, hinstr, hsel, hlang, hdir⟩
  | cons l0 rest ih =>
    obtain ⟨h2, -, -, -, -, -⟩ := selectLanguageEffect_ok env k hk hne s l0
    rw [List.cons_append, selectLanguages_cons env s l0 (rest ++ [l]) h2]
    exact ih _

/-- Witness for claim C3: one selection of French from a state with a
nonempty conversation. -/
theorem language_selection_resets_witness :
    (selectLanguages ⟨some "k"⟩
        ⟨[⟨Role.USER, "hi"⟩], ⟨"en-US", "English", "ltr"⟩, "en", "ltr", ⟨some "k", none⟩⟩
        ([] ++ [⟨"fr-FR", "Français", "ltr"⟩])).1.conversation = [] :=
  (language_selection_resets ⟨some "k"⟩ "k" rfl (by decide) _ [] _).2.1

/-- Claim C5: for each supported language, a successfully created chat
session reads back instructions that are exactly the fixed template
instantiated with the display name of that language. -/
theorem create_session_instruction_roundtrip (env : Env) (s : ChatState)
    (l : LanguageOption) (_hl : l ∈ SUPPORTED_LANGUAGES) (s1 : ChatState)
    (h : startChatSession env s l.name = .ok s1) :
    sessionInstructions s1 = some (getSystemInstruction l.name) := by
  unfold startChatSession at h
  cases hg : getAI env s with
  | error e =>
    rw [hg] at h
    exact Except.noConfusion h
  | ok p =>
    obtain ⟨a, s2⟩ := p
    rw [hg] at h
    injection h with h1
    rw [← h1]
    rfl

/-- Witness for claim C5: creating a session for English. -/
theorem create_session_instruction_roundtrip_witness :
    sessionInstructions
        ⟨some "k", some ⟨"gemini-2.5-flash", getSystemInstruction "English"⟩⟩ =
      some (getSystemInstruction "English") :=
  create_session_instruction_roundtrip ⟨some "k"⟩ initialChatState
    ⟨"en-US", "English", "ltr"⟩ (by decide) _ rfl

/-- Counterexample for claim C7: for language code ar-SA and a platform
whose only voice has locale arm-AM, the code selects that voice via the
string prefix test, although its primary language subtag arm differs
from ar, so the selection claimed (primary-subtag match, else platform
default) does not describe the code. -/
theorem voice_selection_subtag_counterexample :
    selectVoice [⟨"arm-AM"⟩] "ar-SA" = some ⟨"arm-AM"⟩ ∧
    specSelectVoice [⟨"arm-AM"⟩] "ar-SA" = none ∧
    primarySubtag "arm-AM" ≠ primarySubtag "ar-SA" := by
  refine ⟨?_, ?_, ?_⟩ <;> decide

/-- Claim C7 as amended: the speech output adapter is a no-op when the
platform lacks synthesis; otherwise it speaks the text at rate 1 and
pitch 1 with the first exact-locale-match voice, else the first voice
whose locale starts with the primary language subtag of the code (a
string prefix test), else the platform default voice. -/
theorem speak_voice_selection (voices : List Voice) (code : String) (text : String) :
    speak false voices code text = none ∧
    ∃ u, speak true voices code text = some u ∧ u.text = text ∧
      u.rate = 1 ∧ u.pitch = 1 ∧
      ((∃ v, u.voice = some v ∧ v ∈ voices ∧ v.lang = code) ∨
       ((∀ v ∈ voices, v.lang ≠ code) ∧
         ∃ v, u.voice = some v ∧ v ∈ voices ∧
           strStartsWith v.lang (primarySubtag code) = true) ∨
       ((∀ v ∈ voices, v.lang ≠ code ∧
           strStartsWith v.lang (primarySubtag code) = false) ∧
         u.voice = none)) := by
  refine ⟨rfl, ⟨_, rfl, rfl, rfl, rfl, ?_⟩⟩
  cases h1 : voices.find? (fun v => v.lang = code) with
  | some v =>
    left
    have hp1 := List.find?_some h1
    refine ⟨v, ?_, List.mem_of_find?_eq_some h1, by simpa using hp1⟩
    show selectVoice voices code = some v
    simp [selectVoice, h1]
  | none =>
    cases h2 : voices.find? (fun v => strStartsWith v.lang (primarySubtag code)) with
    | some v =>
      right; left
      constructor
      · intro w hw
        have hnc := List.find?_eq_none.mp h1 w hw
        simpa using hnc
      · have hp2 := List.find?_some h2
        refine ⟨v, ?_, List.mem_of_find?_eq_some h2, by simpa using hp2⟩
        show selectVoice voices code = some v
        simp [selectVoice, h1, h2]
    | none =>
      right; right
      constructor
      · intro w hw
        constructor
        · simpa using List.find?_eq_none.mp h1 w hw
        · have hns := List.find?_eq_none.mp h2 w hw
          simpa using hns
      · show selectVoice voices code = none
        simp [selectVoice, h1, h2]

/-- Witness for claim C7 at a concrete platform. -/
theorem speak_voice_selection_witness :
    speak false [] "fr-FR" "Bonjour" = none :=
  (speak_voice_selection [] "fr-FR" "Bonjour").1

/-- Claim C8: clearing the conversation empties the log and installs a
fresh session for the currently selected language, while the selected
language and the document locale and direction metadata are unchanged. -/
theorem clear_conversation_frame (env : Env) (s : AppState) (a : String)
    (ha : s.chatState.ai = some a) :
    (handleClearConversation env s).2 = none ∧
    (handleClearConversation env s).1.conversation = [] ∧
    sessionInstructions (handleClearConversation env s).1.chatState =
      some (getSystemInstruction s.selectedLanguage.name) ∧
    (handleClearConversation env s).1.selectedLanguage = s.selectedLanguage ∧
    (handleClearConversation env s).1.docLang = s.docLang ∧
    (handleClearConversation env s).1.docDir = s.docDir := by
  obtain ⟨conv, sel, dl, dd, ⟨ai, chat⟩⟩ := s
  cases ai with
  | none => simp at ha
  | some a2 => exact ⟨rfl, rfl, rfl, rfl, rfl, rfl⟩

/-- Witness for claim C8: clearing with an initialized provider client,
even with no credential in the environment. -/
theorem clear_conversation_frame_witness :
    (handleClearConversation ⟨none⟩
        ⟨[⟨Role.USER, "hi"⟩], ⟨"fr-FR", "Français", "ltr"⟩, "fr", "ltr",
          ⟨some "k", some ⟨"gemini-2.5-flash", getSystemInstruction "Français"⟩⟩⟩).1.conversation
      = [] :=
  (clear_conversation_frame ⟨none⟩ _ "k" rfl).2.1

/-- Witness for claim C10: an initialized session absorbs a provider
rejection into the fixed resolved string. -/
theorem send_message_never_rejects_when_initialized_witness :
    sendMessageToAI ⟨some "k", some ⟨"gemini-2.5-flash", getSystemInstruction "English"⟩⟩
      (.error "network down") = .ok "Sorry, I encountered an error. Please try again." :=
  (send_message_never_rejects_when_initialized _ _).2.1 "network down" (by simp) rfl

end Polyglot
